import Mathlib

/-!
Verification of the subscription CRUD/aggregation service.

The embedding mirrors the Go sources:
  * `validateDateFormat` — internal/service/subscription.go, `validateDateFormat`;
  * the service-layer request handling (`serviceCalculateTotalCost`,
    `serviceList`, the `...Ops` trace functions) — internal/service/subscription.go;
  * the repository merge logic (`goMergeParams`, `sqlUpdateSubscription`) —
    the repository `Update` together with the `UpdateSubscription` COALESCE SQL;
  * the two generations of the cost SQL (`calculateTotalCostOld`,
    `calculateTotalCostNew`) — the overlap-sum query and the
    generate_series cross-join query.

Dates at the SQL layer are modelled at calendar-month granularity: a period
is the number of months since year 0 (`ym y m = y * 12 + (m - 1)`), the
canonical first-of-month form every stored period takes.  Dates at the
service layer stay strings, exactly as the Go code handles them.
-/

deriving instance DecidableEq for Except

/-! ### Character-level helpers (Go string operations) -/

/-- Does `p` occur as a prefix of `s`?  Models Go/SQL byte-wise prefix
matching on ASCII text. -/
def seqStartsWith : List Char → List Char → Bool
  | [], _ => true
  | _ :: _, [] => false
  | p :: ps, c :: cs => p = c && seqStartsWith ps cs

/-- Does `p` occur as a contiguous subsequence of `s`?  Models SQL
`ILIKE '%p%'` after lowercasing. -/
def seqContains (p : List Char) : List Char → Bool
  | [] => seqStartsWith p []
  | c :: rest => seqStartsWith p (c :: rest) || seqContains p rest

/-- Case-insensitive substring test, the semantics of
`service_name ILIKE '%' || pattern || '%'`. -/
def containsCI (pattern s : String) : Bool :=
  seqContains (pattern.map Char.toLower).toList (s.map Char.toLower).toList

/-- Go's `<` on strings: byte-wise lexicographic comparison (identical to
character-wise comparison on ASCII date strings). -/
def goStrLt : List Char → List Char → Bool
  | [], [] => false
  | [], _ :: _ => true
  | _ :: _, [] => false
  | a :: as, b :: bs => if a < b then true else if b < a then false else goStrLt as bs

/-! ### Date periods at month granularity -/

/-- The month index of year `y`, month `m` (1-based): months since year 0. -/
def ym (y m : Nat) : Nat := y * 12 + (m - 1)

/-! ### SQL-level rows and the two cost queries -/

/-- A row of the `subscriptions` table with its periods at calendar-month
granularity (both SQL generations compare whole periods; all stored periods
are canonical first-of-month values). -/
structure SubscriptionRow where
  id : Nat
  serviceName : String
  price : Nat
  userId : Nat
  startDate : Nat
  endDate : Option Nat
deriving DecidableEq, Repr

/-- The shared SQL filter:
`(user_id IS NULL OR s.user_id = user_id) AND
 (service_name IS NULL OR s.service_name ILIKE '%' || service_name || '%')`. -/
def matchesFilter (uid : Option Nat) (svc : Option String) (s : SubscriptionRow) : Bool :=
  (match uid with
    | none => true
    | some u => s.userId == u) &&
  (match svc with
    | none => true
    | some p => containsCI p s.serviceName)

/-- `generate_series(startM, endM, '1 month')` at month granularity: the
months from `startM` to `endM` inclusive, empty when `endM < startM`. -/
def generateSeries (startM endM : Nat) : List Nat :=
  (List.range (endM + 1 - startM)).map (fun k => startM + k)

/-- The per-month WHERE clause of the generate_series query:
`s.start_date <= dr.month_start AND (s.end_date IS NULL OR s.end_date >= dr.month_start)`. -/
def activeInMonth (s : SubscriptionRow) (m : Nat) : Bool :=
  decide (s.startDate ≤ m) &&
  (match s.endDate with
    | none => true
    | some e => decide (m ≤ e))

/-- `COUNT(DISTINCT dr.month_start)` for one subscription: the months of the
series are pairwise distinct, so the distinct count is the filtered length. -/
def monthsCount (s : SubscriptionRow) (rS rE : Nat) : Nat :=
  ((generateSeries rS rE).filter (fun m => activeInMonth s m)).length

/-- The later-generation `CalculateTotalCost` query (generate_series cross
join): `SUM(price * months_count)` over filter-matching subscriptions.
Subscriptions with no active month form no group and contribute `0`, which
equals multiplying by a zero month count. -/
def calculateTotalCostNew (subs : List SubscriptionRow) (uid : Option Nat)
    (svc : Option String) (rS rE : Nat) : Nat :=
  ((subs.filter (fun s => matchesFilter uid svc s)).map
    (fun s => s.price * monthsCount s rS rE)).sum

/-- Lexicographic order on the zero-padded `MM-YYYY` strings the earlier
storage generation keeps in its VARCHAR(7) period columns: month field
first, then year. -/
def mmyyyyLe (a b : Nat) : Bool :=
  decide (a % 12 < b % 12) || (decide (a % 12 = b % 12) && decide (a / 12 ≤ b / 12))

/-- The earlier generation's overlap predicate:
`start_date <= $4 AND (end_date IS NULL OR end_date >= $3)` with `$4` the
range end and `$3` the range start (the Go caller maps the parameters that
way), compared as `MM-YYYY` strings. -/
def oldOverlap (s : SubscriptionRow) (rS rE : Nat) : Bool :=
  mmyyyyLe s.startDate rE &&
  (match s.endDate with
    | none => true
    | some e => mmyyyyLe rS e)

/-- The earlier-generation `CalculateTotalCost` query: `SUM(price)` over
filter-matching subscriptions satisfying the overlap predicate — each
matching subscription counted once, with no month multiplier. -/
def calculateTotalCostOld (subs : List SubscriptionRow) (uid : Option Nat)
    (svc : Option String) (rS rE : Nat) : Nat :=
  ((subs.filter (fun s => matchesFilter uid svc s && oldOverlap s rS rE)).map
    (fun s => s.price)).sum

/-! ### The claim-side month-activity predicate (spec vocabulary) -/

/-- The spec's activity condition for month `m`:
`subscription.start <= m` and (`subscription.end` is null or
`subscription.end >= m`). -/
def specActive (s : SubscriptionRow) (m : Nat) : Prop :=
  s.startDate ≤ m ∧ (s.endDate = none ∨ ∃ e, s.endDate = some e ∧ m ≤ e)

instance specActiveDecidable (s : SubscriptionRow) (m : Nat) : Decidable (specActive s m) := by
  unfold specActive
  rcases h : s.endDate with _ | e
  · simp only [h, reduceCtorEq, or_false, Option.some.injEq, false_and, exists_false, and_true]
    infer_instance
  · simp only [h, reduceCtorEq, false_or, Option.some.injEq, exists_eq_left']
    infer_instance

/-! ### Bridging lemmas for the month enumeration -/

theorem generateSeries_eq_range' (a b : Nat) :
    generateSeries a b = List.range' a (b + 1 - a) := by
  rw [generateSeries, List.range'_eq_map_range]

theorem activeInMonth_eq_specActive (s : SubscriptionRow) (m : Nat) :
    activeInMonth s m = decide (specActive s m) := by
  rcases h : s.endDate with _ | e
  · simp [activeInMonth, specActive, h]
  · simp [activeInMonth, specActive, h]

theorem monthsCount_eq_card (s : SubscriptionRow) (rS rE : Nat) :
    monthsCount s rS rE = ((Finset.Icc rS rE).filter (fun m => specActive s m)).card := by
  rw [monthsCount, generateSeries_eq_range', Nat.Icc_eq_range']
  have hfun : ∀ m : Nat, activeInMonth s m = decide (specActive s m) :=
    activeInMonth_eq_specActive s
  simp only [Finset.filter, Finset.card]
  rw [show ∀ l : List Nat, l.filter (fun m => activeInMonth s m)
        = l.filter (fun m => decide (specActive s m)) from
      fun l => List.filter_congr (fun m _ => hfun m)]
  rfl

/-! ### Concrete rows for the spec's scenarios -/

/-- The scenario subscription: price 400, start 2023-01, end 2023-03. -/
def sub400 : SubscriptionRow :=
  { id := 1, serviceName := "Yandex Plus", price := 400, userId := 1,
    startDate := ym 2023 1, endDate := some (ym 2023 3) }

/-- The scenario subscription with a null end: start 2023-05, still active. -/
def subOpen : SubscriptionRow :=
  { id := 2, serviceName := "Netflix", price := 400, userId := 1,
    startDate := ym 2023 5, endDate := none }

/-- C1: for every stored-row set, filter and date range, the
generate_series cost query returns the sum, over filter-matching
subscriptions, of price times the number of calendar months `m` in
`[range.start, range.end]` with `subscription.start ≤ m` and
(`subscription.end` null or `subscription.end ≥ m`); in particular the
subscription (price 400, 2023-01..2023-03) yields 1200 over
[2023-01, 2023-03] and 400 over [2023-02, 2023-02], and a subscription
starting 2023-05 with null end contributes 0 over [2023-01, 2023-03]. -/
theorem C1_totalCost_monthOverlap :
    (∀ subs uid svc rS rE, calculateTotalCostNew subs uid svc rS rE =
        ((subs.filter (fun s => matchesFilter uid svc s)).map
          (fun s => s.price *
            ((Finset.Icc rS rE).filter (fun m => specActive s m)).card)).sum)
    ∧ calculateTotalCostNew [sub400] none none (ym 2023 1) (ym 2023 3) = 1200
    ∧ calculateTotalCostNew [sub400] none none (ym 2023 2) (ym 2023 2) = 400
    ∧ calculateTotalCostNew [subOpen] none none (ym 2023 1) (ym 2023 3) = 0 := by
  refine ⟨fun subs uid svc rS rE => ?_, by decide, by decide, by decide⟩
  unfold calculateTotalCostNew
  simp only [monthsCount_eq_card]

/-! ### C7: the two cost-query generations -/

/-- C7 counterexample: on identical rows, filter and range, the earlier
overlap-sum query returns 400 while the generate_series query returns 1200,
so the two storage-level implementations are not equivalent. -/
theorem C7_counterexample :
    calculateTotalCostOld [sub400] none none (ym 2023 1) (ym 2023 3) = 400 ∧
    calculateTotalCostNew [sub400] none none (ym 2023 1) (ym 2023 3) = 1200 := by
  decide

/-- C7 (amended): the earlier generation sums each overlapping
subscription's price once, the later multiplies by its active-month count,
so the two are not equivalent in general; they do agree whenever every
filter-matching subscription that satisfies the earlier generation's
overlap predicate is active in exactly one month of the range (and every
non-overlapping one in none) — though coincidental agreement on other
inputs is possible. -/
theorem C7_generations_agree_when_single_month (subs : List SubscriptionRow)
    (uid : Option Nat) (svc : Option String) (rS rE : Nat)
    (h : ∀ s ∈ subs, matchesFilter uid svc s = true →
      (oldOverlap s rS rE = true → monthsCount s rS rE = 1) ∧
      (oldOverlap s rS rE = false → monthsCount s rS rE = 0)) :
    calculateTotalCostOld subs uid svc rS rE = calculateTotalCostNew subs uid svc rS rE := by
  induction subs with
  | nil => rfl
  | cons s rest ih =>
    have hs := h s (List.mem_cons_self s rest)
    have ihr := ih (fun t ht => h t (List.mem_cons_of_mem s ht))
    by_cases hm : matchesFilter uid svc s = true
    · by_cases ho : oldOverlap s rS rE = true
      · have h1 : monthsCount s rS rE = 1 := (hs hm).1 ho
        simp [calculateTotalCostOld, calculateTotalCostNew, List.filter_cons, hm, ho, h1]
          at ihr ⊢
        omega
      · have h0 : monthsCount s rS rE = 0 :=
          (hs hm).2 (by simpa using ho)
        simp [calculateTotalCostOld, calculateTotalCostNew, List.filter_cons, hm, ho, h0]
          at ihr ⊢
        omega
    · simp [calculateTotalCostOld, calculateTotalCostNew, List.filter_cons, hm] at ihr ⊢
      omega

/-- C7 witness: a concrete single-month range on which the hypothesis holds
and the two generations agree. -/
theorem C7_generations_agree_witness :
    calculateTotalCostOld [sub400] none none (ym 2023 2) (ym 2023 2) =
      calculateTotalCostNew [sub400] none none (ym 2023 2) (ym 2023 2) :=
  C7_generations_agree_when_single_month [sub400] none none (ym 2023 2) (ym 2023 2)
    (by decide)

/-! ### Service layer: date-format validation and the total-cost path -/

/-- `validateDateFormat` from the service: rejects a string whose length is
not 10 or whose characters at byte positions 4 and 7 are not `'-'`; the
final re-check of the sliced segment lengths mirrors the source (it is
unreachable once the length check passed). -/
def validateDateFormat (date : String) : Except String Unit :=
  let cs := date.toList
  if cs.length ≠ 10 then .error "date must be in YYYY-MM-DD format"
  else if cs.getD 4 ' ' ≠ '-' ∨ cs.getD 7 ' ' ≠ '-' then
    .error "date must be in YYYY-MM-DD format"
  else
    let year := cs.take 4
    let monthPart := (cs.drop 5).take 2
    let dayPart := cs.drop 8
    if year.length ≠ 4 ∨ monthPart.length ≠ 2 ∨ dayPart.length ≠ 2 then
      .error "date must be in YYYY-MM-DD format"
    else .ok ()

/-- `domain.TotalCostRequest`: the bound query parameters. -/
structure TotalCostRequest where
  userID : Option String
  serviceName : Option String
  startDate : String
  endDate : String
deriving DecidableEq

/-- `repository.TotalCostFilter`: what the service hands to storage. -/
structure TotalCostFilter where
  userID : Option Nat
  serviceName : Option String
  startDate : String
  endDate : String
deriving DecidableEq

/-- Outcome of the service's `CalculateTotalCost` before the storage
round-trip: a validation failure, or the storage query it issues. -/
inductive CalcOutcome where
  | fmtError (msg : String)
  | idError
  | storageQuery (f : TotalCostFilter)
deriving DecidableEq

/-- `subscriptionService.CalculateTotalCost` up to the storage call:
validate the two date formats, build the filter, parse the optional user
id (`parseU` stands for the external `uuid.Parse`), then query.  The
source performs no comparison between the two dates. -/
def serviceCalculateTotalCost (parseU : String → Option Nat)
    (req : TotalCostRequest) : CalcOutcome :=
  match validateDateFormat req.startDate with
  | .error m => .fmtError m
  | .ok _ =>
    match validateDateFormat req.endDate with
    | .error m => .fmtError m
    | .ok _ =>
      match req.userID with
      | none => .storageQuery ⟨none, req.serviceName, req.startDate, req.endDate⟩
      | some u =>
        if u = "" then .storageQuery ⟨none, req.serviceName, req.startDate, req.endDate⟩
        else
          match parseU u with
          | none => .idError
          | some uid => .storageQuery ⟨some uid, req.serviceName, req.startDate, req.endDate⟩

/-! ### C2: no InvalidRange check on the total-cost path -/

/-- C2 counterexample: start `2023-05-01` and end `2023-01-01` are both
format-valid and the end precedes the start byte-wise, yet the service
issues the storage query instead of failing with an InvalidRange error. -/
theorem C2_counterexample :
    validateDateFormat "2023-05-01" = .ok () ∧
    validateDateFormat "2023-01-01" = .ok () ∧
    goStrLt "2023-01-01".toList "2023-05-01".toList = true ∧
    serviceCalculateTotalCost (fun _ => none)
        ⟨none, none, "2023-05-01", "2023-01-01"⟩ =
      .storageQuery ⟨none, none, "2023-05-01", "2023-01-01"⟩ := by
  decide

/-- C2 (amended): the service performs no end-before-start check on
total-cost requests: whenever both dates pass format validation and any
supplied, non-empty user id parses, the request reaches storage
unconditionally — with the request's dates and service name in the filter —
and an inverted range then yields total 0 from the empty month series. -/
theorem C2_no_range_check (parseU : String → Option Nat) (req : TotalCostRequest)
    (h1 : validateDateFormat req.startDate = .ok ())
    (h2 : validateDateFormat req.endDate = .ok ())
    (h3 : ∀ u, req.userID = some u → u ≠ "" → (parseU u).isSome = true) :
    (∃ f : TotalCostFilter, serviceCalculateTotalCost parseU req = .storageQuery f ∧
      f.serviceName = req.serviceName ∧ f.startDate = req.startDate ∧
      f.endDate = req.endDate)
    ∧ ∀ subs uid svc rS rE, rE < rS → calculateTotalCostNew subs uid svc rS rE = 0 := by
  constructor
  · rcases hu : req.userID with _ | u
    · exact ⟨⟨none, req.serviceName, req.startDate, req.endDate⟩,
        by simp [serviceCalculateTotalCost, h1, h2, hu], rfl, rfl, rfl⟩
    · by_cases hue : u = ""
      · exact ⟨⟨none, req.serviceName, req.startDate, req.endDate⟩,
          by simp [serviceCalculateTotalCost, h1, h2, hu, hue], rfl, rfl, rfl⟩
      · rcases hp : parseU u with _ | uid
        · have := h3 u hu hue
          rw [hp] at this
          cases this
        · exact ⟨⟨some uid, req.serviceName, req.startDate, req.endDate⟩,
            by simp [serviceCalculateTotalCost, h1, h2, hu, hue, hp], rfl, rfl, rfl⟩
  · intro subs uid svc rS rE hlt
    have hser : generateSeries rS rE = [] := by
      simp [generateSeries, Nat.sub_eq_zero_of_le hlt]
    apply List.sum_eq_zero
    intro x hx
    rcases List.mem_map.mp hx with ⟨s, _, rfl⟩
    simp [monthsCount, hser]

/-- C2 witness: an inverted-range request carrying a supplied, parseable
user id satisfies the amended theorem's hypotheses and reaches storage
with the request's dates; the query then computes 0 on concrete rows. -/
theorem C2_no_range_check_witness :
    (∃ f : TotalCostFilter,
      serviceCalculateTotalCost (fun _ => some 42)
          ⟨some "user-1", none, "2023-05-01", "2023-01-01"⟩ = .storageQuery f ∧
      f.serviceName = none ∧ f.startDate = "2023-05-01" ∧ f.endDate = "2023-01-01")
    ∧ calculateTotalCostNew [sub400] none none (ym 2023 5) (ym 2023 1) = 0 := by
  have h := C2_no_range_check (fun _ => some 42)
    ⟨some "user-1", none, "2023-05-01", "2023-01-01"⟩ (by decide) (by decide)
    (fun u hu _ => by cases hu; rfl)
  exact ⟨h.1, h.2 [sub400] none none (ym 2023 5) (ym 2023 1) (by decide)⟩

/-! ### C4: what the validator actually checks -/

/-- C4 counterexample: `"aaaa-bb-cc"` has non-numeric characters in every
segment, yet `validateDateFormat` accepts it — the validator checks no
digit content, refuting the claimed "exactly when" characterization. -/
theorem C4_counterexample :
    validateDateFormat "aaaa-bb-cc" = .ok () ∧
    ("aaaa-bb-cc".toList.take 4).all (fun c => c.isDigit) = false := by
  decide

/-- C4 (amended): `validateDateFormat` succeeds exactly when the string is
10 characters long with `'-'` at positions 4 and 7; it never inspects the
year, month or day characters, so any such string — numeric or not — is
accepted, and every canonical `YYYY-MM-DD` string is accepted. -/
theorem C4_format_shape_only (s : String) :
    validateDateFormat s = .ok () ↔
      (s.toList.length = 10 ∧ s.toList.getD 4 ' ' = '-' ∧ s.toList.getD 7 ' ' = '-') := by
  unfold validateDateFormat
  dsimp only
  split_ifs with h1 h2 h3
  · simp only [reduceCtorEq, false_iff]
    intro hc
    exact h1 hc.1
  · simp only [reduceCtorEq, false_iff]
    intro hc
    rcases h2 with h | h
    · exact h hc.2.1
    · exact h hc.2.2
  · exfalso
    have hl : s.toList.length = 10 := not_not.mp h1
    have hsl : s.length = 10 := hl
    rcases h3 with h | h | h <;> simp [List.length_take, List.length_drop, hl] at h <;> omega
  · push_neg at h2
    simp only [true_iff, iff_true]
    exact ⟨not_not.mp h1, h2.1, h2.2⟩

/-! ### Domain-level rows and partial updates (CRUD layer) -/

/-- `domain.Subscription`: the domain row, its dates the strings the Go
service and handler pass around. -/
structure Subscription where
  id : Nat
  serviceName : String
  price : Nat
  userId : Nat
  startDate : String
  endDate : Option String
deriving DecidableEq, Repr

/-- `domain.UpdateSubscriptionRequest`: a supplied field replaces, an
absent field retains. -/
structure UpdateSubscriptionRequest where
  serviceName : Option String
  price : Option Nat
  startDate : Option String
  endDate : Option String
deriving DecidableEq

/-- `sqlc.UpdateSubscriptionParams` as the SQL sees them: parameters
`$2..$5` under COALESCE are all nullable. -/
structure SqlUpdateParams where
  serviceName : Option String
  price : Option Nat
  startDate : Option String
  endDate : Option String
deriving DecidableEq

/-- The Go-side merge in the repository `Update`: start from the current
row's values and overwrite with any supplied request field.  The service
name, price and start date are always passed non-null; the end-date
parameter is null exactly when the current row has no end date and the
request supplies none. -/
def goMergeParams (cur : Subscription) (req : UpdateSubscriptionRequest) : SqlUpdateParams :=
  { serviceName := some (match req.serviceName with | some v => v | none => cur.serviceName),
    price := some (match req.price with | some v => v | none => cur.price),
    startDate := some (match req.startDate with | some v => v | none => cur.startDate),
    endDate := match req.endDate with | some v => some v | none => cur.endDate }

/-- The `UpdateSubscription` SQL: `SET col = COALESCE(param, col)` for each
column. -/
def sqlUpdateSubscription (row : Subscription) (p : SqlUpdateParams) : Subscription :=
  { row with
    serviceName := match p.serviceName with | some v => v | none => row.serviceName,
    price := match p.price with | some v => v | none => row.price,
    startDate := match p.startDate with | some v => v | none => row.startDate,
    endDate := match p.endDate with | some v => some v | none => row.endDate }

/-- Repository `Update` applied to the current row: the Go merge followed
by the SQL COALESCE. -/
def repoUpdateRow (cur : Subscription) (req : UpdateSubscriptionRequest) : Subscription :=
  sqlUpdateSubscription cur (goMergeParams cur req)

/-- `GetSubscription` by id. -/
def findRow (store : List Subscription) (id : Nat) : Option Subscription :=
  store.find? (fun r => r.id == id)

/-- Repository `Delete` (later generation): `DELETE ... WHERE id = $1`;
zero affected rows is logged and reported as success. -/
def repoDelete (store : List Subscription) (id : Nat) : List Subscription × Option String :=
  (store.filter (fun r => r.id != id), none)

/-- `subscriptionService.Delete`: a `GetByID` existence check that errors
on a missing row, then the repository delete. -/
def serviceDelete (store : List Subscription) (id : Nat) : List Subscription × Option String :=
  match findRow store id with
  | none => (store, some "subscription not found")
  | some _ => repoDelete store id

/-- A concrete stored row used by several scenarios. -/
def rowNetflix : Subscription :=
  { id := 1, serviceName := "Netflix", price := 400, userId := 7,
    startDate := "2023-01-01", endDate := some "2023-05-01" }

/-! ### C3: delete idempotence across the two layers -/

/-- C3 counterexample: deleting id 1 from an empty store errors with
"subscription not found", and after one successful service-level delete the
second delete of the same id errors — the two runs are not observably
equal, refuting service-level idempotence. -/
theorem C3_counterexample :
    serviceDelete [] 1 = ([], some "subscription not found") ∧
    (serviceDelete [rowNetflix] 1).2 = none ∧
    (serviceDelete (serviceDelete [rowNetflix] 1).1 1).2 = some "subscription not found" := by
  decide

theorem findRow_repoDelete (store : List Subscription) (id : Nat) :
    findRow (repoDelete store id).1 id = none := by
  simp only [findRow, repoDelete, List.find?_eq_none, List.mem_filter]
  intro r hr
  simpa using hr.2

/-- C3 (amended): the repository delete is idempotent and treats a missing
row as success, but the service layer's existence check makes service-level
delete of an absent id an error: the first delete of a present id succeeds
and the second errors with "subscription not found". -/
theorem C3_delete_idempotent_repo_only (store : List Subscription) (id : Nat) :
    ((repoDelete store id).2 = none ∧
      repoDelete (repoDelete store id).1 id = repoDelete store id) ∧
    (findRow store id = none →
      serviceDelete store id = (store, some "subscription not found")) ∧
    (∀ r, findRow store id = some r →
      (serviceDelete store id).2 = none ∧
      (serviceDelete (serviceDelete store id).1 id).2 = some "subscription not found") := by
  refine ⟨⟨rfl, ?_⟩, ?_, ?_⟩
  · simp [repoDelete, List.filter_filter]
  · intro h
    simp [serviceDelete, h]
  · intro r h
    have hserv : serviceDelete store id = repoDelete store id := by
      simp [serviceDelete, h]
    refine ⟨by simp [hserv, repoDelete], ?_⟩
    rw [hserv]
    simp [serviceDelete, findRow_repoDelete]

/-- C3 witness: the amended behaviour on a concrete one-row store. -/
theorem C3_delete_idempotent_repo_only_witness :
    (serviceDelete [rowNetflix] 1).2 = none ∧
    (serviceDelete (serviceDelete [rowNetflix] 1).1 1).2 = some "subscription not found" :=
  (C3_delete_idempotent_repo_only [rowNetflix] 1).2.2 rowNetflix (by decide)

/-! ### Service operations as storage-call traces -/

/-- The storage operations a service call can invoke, in order. -/
inductive StorageOp where
  | opGetById | opCreate | opUpdate | opDelete | opListRows | opCountRows | opSumCost
deriving DecidableEq, Repr

/-- `domain.CreateSubscriptionRequest`. -/
structure CreateSubscriptionRequest where
  serviceName : String
  price : Nat
  userID : Nat
  startDate : String
  endDate : Option String
deriving DecidableEq

/-- `subscriptionService.Create` as a trace: validate the start-date
format, then the end-date format when supplied, then reject `end < start`
(Go byte-wise string comparison); only then call the repository insert. -/
def serviceCreateOps (req : CreateSubscriptionRequest) : List StorageOp × Option String :=
  match validateDateFormat req.startDate with
  | .error m => ([], some m)
  | .ok _ =>
    match req.endDate with
    | none => ([.opCreate], none)
    | some e =>
      match validateDateFormat e with
      | .error m => ([], some m)
      | .ok _ =>
        if goStrLt e.toList req.startDate.toList then
          ([], some "end date must be after start date")
        else ([.opCreate], none)

/-- `subscriptionService.Update` as a trace: the `GetByID` existence check
runs before any date validation, and the repository `Update` performs its
own `GetSubscription` before the SQL update. -/
def serviceUpdateOps (store : List Subscription) (id : Nat)
    (req : UpdateSubscriptionRequest) : List StorageOp × Option String :=
  match findRow store id with
  | none => ([.opGetById], some "subscription not found")
  | some _ =>
    match (match req.startDate with
           | none => Except.ok ()
           | some d => validateDateFormat d) with
    | .error m => ([.opGetById], some m)
    | .ok _ =>
      match (match req.endDate with
             | none => Except.ok ()
             | some d => validateDateFormat d) with
      | .error m => ([.opGetById], some m)
      | .ok _ => ([.opGetById, .opGetById, .opUpdate], none)

/-- `subscriptionService.Delete` as a trace. -/
def serviceDeleteOps (store : List Subscription) (id : Nat) :
    List StorageOp × Option String :=
  match findRow store id with
  | none => ([.opGetById], some "subscription not found")
  | some _ => ([.opGetById, .opDelete], none)

/-- `domain.ListSubscriptionsRequest` (query-bound; Go ints can be
negative). -/
structure ListSubscriptionsRequest where
  userID : Option String
  serviceName : Option String
  limit : Int
  offset : Int
deriving DecidableEq

/-- `repository.ListSubscriptionsFilter` as the service builds it. -/
structure ListSubscriptionsFilter where
  userID : Option Nat
  serviceName : Option String
  limit : Int
  offset : Int
deriving DecidableEq

/-- `subscriptionService.List`: substitute 20 for a non-positive limit,
then cap at 100, build the filter, parse the optional user id (`parseU`
stands for `uuid.Parse`).  The offset is copied through with no check. -/
def serviceList (parseU : String → Option Nat) (req : ListSubscriptionsRequest) :
    Except String ListSubscriptionsFilter :=
  let limit1 : Int := if req.limit ≤ 0 then 20 else req.limit
  let limit2 : Int := if limit1 > 100 then 100 else limit1
  match req.userID with
  | none => .ok ⟨none, req.serviceName, limit2, req.offset⟩
  | some u =>
    if u = "" then .ok ⟨none, req.serviceName, limit2, req.offset⟩
    else
      match parseU u with
      | none => .error "invalid user_id format"
      | some uid => .ok ⟨some uid, req.serviceName, limit2, req.offset⟩

/-- `subscriptionService.List` as a trace: on success the repository runs
the list query, then the count query. -/
def serviceListOps (parseU : String → Option Nat) (req : ListSubscriptionsRequest) :
    List StorageOp × Option String :=
  match serviceList parseU req with
  | .error m => ([], some m)
  | .ok _ => ([.opListRows, .opCountRows], none)

/-- `subscriptionService.CalculateTotalCost` as a trace. -/
def serviceCalcOps (parseU : String → Option Nat) (req : TotalCostRequest) :
    List StorageOp × Option String :=
  match serviceCalculateTotalCost parseU req with
  | .fmtError m => ([], some m)
  | .idError => ([], some "invalid user_id format")
  | .storageQuery _ => ([.opSumCost], none)

/-! ### C6: validation versus storage-call order -/

/-- A date-format-invalid update request. -/
def badDateReq : UpdateSubscriptionRequest := ⟨none, none, some "bad", none⟩

/-- C6 counterexample: an update request with a format-invalid start date
against an existing row fails validation, yet the trace already contains a
storage read — the existence check ran before validation, refuting the
claim that a validation-failing request never causes a storage operation. -/
theorem C6_counterexample :
    (serviceUpdateOps [rowNetflix] 1 badDateReq).2 =
      some "date must be in YYYY-MM-DD format" ∧
    (serviceUpdateOps [rowNetflix] 1 badDateReq).1 = [StorageOp.opGetById] := by
  decide

/-- C6 (amended): Create, List and CalculateTotalCost detect every
validation error before any storage call; Update performs a storage read
(the existence check) before date validation, so a format-invalid update
still causes a read — though never a write; Delete performs no format
validation and its only error follows its read. -/
theorem C6_validation_order :
    (∀ req, (serviceCreateOps req).2.isSome → (serviceCreateOps req).1 = []) ∧
    (∀ parseU req, (serviceListOps parseU req).2.isSome →
      (serviceListOps parseU req).1 = []) ∧
    (∀ parseU req, (serviceCalcOps parseU req).2.isSome →
      (serviceCalcOps parseU req).1 = []) ∧
    (∀ store id req, (serviceUpdateOps store id req).2.isSome →
      StorageOp.opUpdate ∉ (serviceUpdateOps store id req).1 ∧
      (serviceUpdateOps store id req).1 = [StorageOp.opGetById]) ∧
    (∀ store id, (serviceDeleteOps store id).2.isSome →
      (serviceDeleteOps store id).1 = [StorageOp.opGetById]) := by
  refine ⟨?_, ?_, ?_, ?_, ?_⟩
  · intro req h
    rcases hv : validateDateFormat req.startDate with m | u
    · simp [serviceCreateOps, hv]
    · rcases he : req.endDate with _ | e
      · simp [serviceCreateOps, hv, he] at h
      · rcases hve : validateDateFormat e with m | u2
        · simp [serviceCreateOps, hv, he, hve]
        · by_cases hlt : goStrLt e.data req.startDate.data = true
          · simp [serviceCreateOps, hv, he, hve, hlt]
          · simp [serviceCreateOps, hv, he, hve, hlt] at h
  · intro parseU req h
    rcases hl : serviceList parseU req with m | f
    · simp [serviceListOps, hl]
    · simp [serviceListOps, hl] at h
  · intro parseU req h
    rcases hc : serviceCalculateTotalCost parseU req with m | _ | f
    · simp [serviceCalcOps, hc]
    · simp [serviceCalcOps, hc]
    · simp [serviceCalcOps, hc] at h
  · intro store id req h
    rcases hf : findRow store id with _ | r
    · simp [serviceUpdateOps, hf]
    · rcases hv : (match req.startDate with
                   | none => Except.ok ()
                   | some d => validateDateFormat d) with m | u
      · simp [serviceUpdateOps, hf, hv]
      · rcases hve : (match req.endDate with
                      | none => Except.ok ()
                      | some d => validateDateFormat d) with m | u2
        · simp [serviceUpdateOps, hf, hv, hve]
        · simp [serviceUpdateOps, hf, hv, hve] at h
  · intro store id h
    rcases hf : findRow store id with _ | r
    · simp [serviceDeleteOps, hf]
    · simp [serviceDeleteOps, hf] at h

/-- C6 witness: the amended guarantee applied to the counterexample's
update request — the failed update performed only the read. -/
theorem C6_validation_order_witness :
    StorageOp.opUpdate ∉ (serviceUpdateOps [rowNetflix] 1 badDateReq).1 ∧
    (serviceUpdateOps [rowNetflix] 1 badDateReq).1 = [StorageOp.opGetById] :=
  C6_validation_order.2.2.2.1 [rowNetflix] 1 badDateReq (by decide)

/-! ### C5: the end-after-start invariant across operations -/

/-- Does a row satisfy the documented invariant `end ≥ start`?  A null end
counts as satisfied; the comparison is Go's byte-wise string order, which
is chronological on canonical `YYYY-MM-DD` strings. -/
def endAfterStartB (r : Subscription) : Bool :=
  match r.endDate with
  | none => true
  | some e => ! goStrLt e.toList r.startDate.toList

/-- The row the repository insert materializes from a create request. -/
def createdRow (idn : Nat) (req : CreateSubscriptionRequest) : Subscription :=
  ⟨idn, req.serviceName, req.price, req.userID, req.startDate, req.endDate⟩

/-- C5 counterexample: an existing row satisfying the invariant, updated
only in its start date (a format-valid value), passes the service's
update validation yet the resulting row violates `end ≥ start` — Update
does not preserve the invariant. -/
theorem C5_counterexample :
    endAfterStartB rowNetflix = true ∧
    (serviceUpdateOps [rowNetflix] 1 ⟨none, none, some "2024-01-01", none⟩).2 = none ∧
    endAfterStartB (repoUpdateRow rowNetflix ⟨none, none, some "2024-01-01", none⟩) = false := by
  decide

/-- C5 (amended): Create rejects a supplied end date that precedes the
start date, so every created row satisfies `end ≥ start`; Update
re-validates only the format of supplied dates and never their ordering,
so it preserves the invariant only when the request supplies neither date
field. -/
theorem C5_invariant_create_only (idn : Nat) (req : CreateSubscriptionRequest)
    (cur : Subscription) (ureq : UpdateSubscriptionRequest)
    (hok : (serviceCreateOps req).2 = none)
    (hinv : endAfterStartB cur = true)
    (hs : ureq.startDate = none) (he : ureq.endDate = none) :
    endAfterStartB (createdRow idn req) = true ∧
    endAfterStartB (repoUpdateRow cur ureq) = true := by
  constructor
  · rcases hv : validateDateFormat req.startDate with m | u
    · simp [serviceCreateOps, hv] at hok
    · rcases hed : req.endDate with _ | e
      · simp [endAfterStartB, createdRow, hed]
      · rcases hve : validateDateFormat e with m | u2
        · simp [serviceCreateOps, hv, hed, hve] at hok
        · by_cases hlt : goStrLt e.data req.startDate.data = true
          · simp [serviceCreateOps, hv, hed, hve, hlt] at hok
          · simp [endAfterStartB, createdRow, hed, String.toList, hlt]
  · have hend : (repoUpdateRow cur ureq).endDate = cur.endDate := by
      rcases hc : cur.endDate with _ | e <;>
        simp [repoUpdateRow, goMergeParams, sqlUpdateSubscription, he, hc]
    have hstart : (repoUpdateRow cur ureq).startDate = cur.startDate := by
      simp [repoUpdateRow, goMergeParams, sqlUpdateSubscription, hs]
    rcases hc : cur.endDate with _ | e
    · simp [endAfterStartB, hend, hc]
    · have := hinv
      simp [endAfterStartB, hc] at this
      simp [endAfterStartB, hend, hstart, hc, this]

/-- C5 witness: a concrete valid create request and a price-only update on
the concrete row, both satisfying the invariant. -/
theorem C5_invariant_create_only_witness :
    endAfterStartB (createdRow 1 ⟨"Netflix", 400, 7, "2023-01-01", some "2023-05-01"⟩) = true ∧
    endAfterStartB (repoUpdateRow rowNetflix ⟨some "Netflix Premium", some 500, none, none⟩) = true :=
  C5_invariant_create_only 1 ⟨"Netflix", 400, 7, "2023-01-01", some "2023-05-01"⟩
    rowNetflix ⟨some "Netflix Premium", some 500, none, none⟩
    (by decide) (by decide) rfl rfl

/-! ### C8: list limit clamping, offset, total count -/

/-- The list/count row filter; the repository maps an absent — or empty —
service-name pattern to SQL NULL, i.e. no constraint. -/
def matchesListFilter (uid : Option Nat) (svc : Option String) (r : Subscription) : Bool :=
  (match uid with
    | none => true
    | some u => r.userId == u) &&
  (match svc with
    | none => true
    | some p => if p = "" then true else containsCI p r.serviceName)

/-- Repository `List`: the store list is taken newest-created-first (the
SQL orders by `created_at DESC`); `OFFSET`/`LIMIT` apply to the row query
while the count query sees only the filter. -/
def repoList (store : List Subscription) (f : ListSubscriptionsFilter) :
    List Subscription × Nat :=
  let matching := store.filter (fun r => matchesListFilter f.userID f.serviceName r)
  ((matching.drop f.offset.toNat).take f.limit.toNat, matching.length)

/-- C8 counterexample: a list request with offset −5 passes the service
unchanged — no error and the filter carries the negative offset to
storage, refuting the claim that List requires a non-negative offset. -/
theorem C8_counterexample :
    serviceList (fun _ => none) ⟨none, none, 10, -5⟩ =
      .ok ⟨none, none, 10, -5⟩ := by
  decide

/-- C8 (amended): the limit is clamped into [1,100] — 20 substituted when
the supplied limit is ≤ 0 and 100 when it exceeds 100 — the offset is
copied through with no validation, and the returned total count ignores
both limit and offset. -/
theorem C8_limit_clamped (parseU : String → Option Nat)
    (req : ListSubscriptionsRequest) (f : ListSubscriptionsFilter)
    (h : serviceList parseU req = .ok f) :
    (1 ≤ f.limit ∧ f.limit ≤ 100) ∧
    (req.limit ≤ 0 → f.limit = 20) ∧
    (100 < req.limit → f.limit = 100) ∧
    f.offset = req.offset ∧
    (∀ store l₁ o₁ l₂ o₂,
      (repoList store ⟨f.userID, f.serviceName, l₁, o₁⟩).2 =
      (repoList store ⟨f.userID, f.serviceName, l₂, o₂⟩).2) := by
  have hf : f.limit = (if (if req.limit ≤ 0 then (20 : Int) else req.limit) > 100 then 100
      else if req.limit ≤ 0 then (20 : Int) else req.limit) ∧ f.offset = req.offset := by
    unfold serviceList at h
    dsimp only at h
    rcases hu : req.userID with _ | u
    · rw [hu] at h
      cases h
      exact ⟨rfl, rfl⟩
    · rw [hu] at h
      dsimp only at h
      by_cases hue : u = ""
      · rw [if_pos hue] at h
        cases h
        exact ⟨rfl, rfl⟩
      · rw [if_neg hue] at h
        rcases hp : parseU u with _ | uid
        · rw [hp] at h
          cases h
        · rw [hp] at h
          cases h
          exact ⟨rfl, rfl⟩
  refine ⟨?_, ?_, ?_, hf.2, fun store l₁ o₁ l₂ o₂ => rfl⟩
  · rw [hf.1]
    split_ifs <;> omega
  · intro hle
    rw [hf.1]
    split_ifs <;> omega
  · intro hgt
    rw [hf.1]
    split_ifs <;> omega

/-- C8 witness: limit 0 becomes 20, in [1,100], and on a concrete store
the count is the same for two different limit/offset pairs. -/
theorem C8_limit_clamped_witness :
    (1 ≤ (⟨none, none, 20, 0⟩ : ListSubscriptionsFilter).limit ∧
      (⟨none, none, 20, 0⟩ : ListSubscriptionsFilter).limit ≤ 100) ∧
    (⟨none, none, 20, 0⟩ : ListSubscriptionsFilter).limit = 20 ∧
    (repoList [rowNetflix] ⟨none, none, 1, 0⟩).2 =
      (repoList [rowNetflix] ⟨none, none, 100, 37⟩).2 :=
  let h := C8_limit_clamped (fun _ => none) ⟨none, none, 0, 0⟩
    ⟨none, none, 20, 0⟩ (by decide)
  ⟨h.1, h.2.1 (by decide), h.2.2.2.2 [rowNetflix] 1 0 100 37⟩

/-! ### C9 and C10: the partial-update frame -/

/-- A price-only update request. -/
def priceOnlyReq : UpdateSubscriptionRequest := ⟨none, some 999, none, none⟩

/-- C9: every field not supplied in a partial-update request retains its
prior value in the updated row (and a supplied price lands as given); in
particular a price-only update leaves service name, start date and end
date unchanged. -/
theorem C9_partial_update_frame (cur : Subscription) (req : UpdateSubscriptionRequest) :
    (repoUpdateRow cur req).id = cur.id ∧
    (req.serviceName = none → (repoUpdateRow cur req).serviceName = cur.serviceName) ∧
    (req.price = none → (repoUpdateRow cur req).price = cur.price) ∧
    (req.startDate = none → (repoUpdateRow cur req).startDate = cur.startDate) ∧
    (req.endDate = none → (repoUpdateRow cur req).endDate = cur.endDate) ∧
    (∀ p, req.price = some p → (repoUpdateRow cur req).price = p) := by
  refine ⟨rfl, ?_, ?_, ?_, ?_, ?_⟩
  · intro h
    simp [repoUpdateRow, goMergeParams, sqlUpdateSubscription, h]
  · intro h
    simp [repoUpdateRow, goMergeParams, sqlUpdateSubscription, h]
  · intro h
    simp [repoUpdateRow, goMergeParams, sqlUpdateSubscription, h]
  · intro h
    rcases hc : cur.endDate with _ | e <;>
      simp [repoUpdateRow, goMergeParams, sqlUpdateSubscription, h, hc]
  · intro p h
    simp [repoUpdateRow, goMergeParams, sqlUpdateSubscription, h]

/-- C9 witness: the price-only update on the concrete row changes the price
to 999 and nothing else. -/
theorem C9_partial_update_frame_witness :
    (repoUpdateRow rowNetflix priceOnlyReq).serviceName = rowNetflix.serviceName ∧
    (repoUpdateRow rowNetflix priceOnlyReq).startDate = rowNetflix.startDate ∧
    (repoUpdateRow rowNetflix priceOnlyReq).endDate = rowNetflix.endDate ∧
    (repoUpdateRow rowNetflix priceOnlyReq).price = 999 :=
  let h := C9_partial_update_frame rowNetflix priceOnlyReq
  ⟨h.2.1 rfl, h.2.2.2.1 rfl, h.2.2.2.2.1 rfl, h.2.2.2.2.2 999 rfl⟩

/-- C10: once a row has an end date, no update request can return it to a
null end: an omitted end_date retains the prior value, a supplied one
replaces it, and there is no way to supply null. -/
theorem C10_end_never_cleared (cur : Subscription) (req : UpdateSubscriptionRequest)
    (e : String) (h : cur.endDate = some e) :
    (repoUpdateRow cur req).endDate ≠ none ∧
    (req.endDate = none → (repoUpdateRow cur req).endDate = some e) ∧
    (∀ v, req.endDate = some v → (repoUpdateRow cur req).endDate = some v) := by
  refine ⟨?_, ?_, ?_⟩
  · rcases hr : req.endDate with _ | v <;>
      simp [repoUpdateRow, goMergeParams, sqlUpdateSubscription, hr, h]
  · intro hn
    simp [repoUpdateRow, goMergeParams, sqlUpdateSubscription, hn, h]
  · intro v hv
    simp [repoUpdateRow, goMergeParams, sqlUpdateSubscription, hv]

/-- C10 witness: the concrete row keeps its end date across a price-only
update. -/
theorem C10_end_never_cleared_witness :
    (repoUpdateRow rowNetflix priceOnlyReq).endDate ≠ none ∧
    (repoUpdateRow rowNetflix priceOnlyReq).endDate = some "2023-05-01" :=
  let h := C10_end_never_cleared rowNetflix priceOnlyReq "2023-05-01" rfl
  ⟨h.1, h.2.1 rfl⟩
